import Mathlib

/-!
Verification of the thermostat firmware `picow_airconditioning_controller`.

Shallow embedding of the Rust sources:
* `src/temp_controller.rs` — `ControllerState`, `TempController` with
  `new`/`update`/`is_running`/`is_cooldown`/`get_state`, and the relay logic of
  `temp_controller_task`;
* `src/dht11.rs` — `DHT11::get_temperature` (the `u32 as i8` lane cast);
* `src/main.rs` — the `temp_controller` task loop body (status publishing and
  config draining);
* `src/uart_cli.rs` — the `Status` command's remaining-time computation.

Time: `embassy_time::Instant` and `Duration` both carry a `u64` tick count and
`Instant + Duration` adds tick counts; ticks are modelled as `Nat` (the tick
counter of a device cannot physically approach `2^64`, so wrap-around is not
modelled).  `Instant::now()` is passed in explicitly as a `now` argument.  The
`i8` temperatures are modelled as `Int` (only compared, never wrapped).
-/

namespace PicoW

/-- Embedding of `ControllerState` from src/temp_controller.rs: `Idle`,
`Running { starttime }`, `Cooldown { starttime }`. -/
inductive ControllerState where
  | Idle : ControllerState
  | Running (starttime : Nat) : ControllerState
  | Cooldown (starttime : Nat) : ControllerState
deriving DecidableEq, Repr

/-- Embedding of `TempController` from src/temp_controller.rs: current state plus the three
configuration fields. -/
structure TempController where
  state : ControllerState
  threshold_temperature : Int
  minimum_runtime : Nat
  cooldown_time : Nat
deriving DecidableEq, Repr

namespace TempController

/-- Embedding of `TempController::new` (src/temp_controller.rs:29-42): starts in
`Cooldown { starttime: Instant::now() }`; `now` is the construction time. -/
def new (threshold_temperature : Int) (minimum_runtime cooldown_time : Nat)
    (now : Nat) : TempController :=
  { state := ControllerState.Cooldown now
    threshold_temperature := threshold_temperature
    minimum_runtime := minimum_runtime
    cooldown_time := cooldown_time }

/-- Embedding of `TempController::update` (src/temp_controller.rs:44-77).  Returns the
controller after the call together with the returned `bool` (whether a
transition occurred).  `now` is the `Instant::now()` sampled by the call. -/
def update (c : TempController) (now : Nat) (current_temperature : Int) :
    TempController × Bool :=
  match c.state with
  | ControllerState.Idle =>
    if current_temperature > c.threshold_temperature then
      ({ c with state := ControllerState.Running now }, true)
    else
      (c, false)
  | ControllerState.Running starttime =>
    if now > starttime + c.minimum_runtime then
      ({ c with state := ControllerState.Cooldown now }, true)
    else
      (c, false)
  | ControllerState.Cooldown starttime =>
    if now > starttime + c.cooldown_time then
      ({ c with state := ControllerState.Idle }, true)
    else
      (c, false)

/-- Embedding of `TempController::is_running` (src/temp_controller.rs:79-81). -/
def is_running (c : TempController) : Bool :=
  match c.state with
  | ControllerState.Running _ => true
  | _ => false

/-- Embedding of `TempController::is_cooldown` (src/temp_controller.rs:87-89). -/
def is_cooldown (c : TempController) : Bool :=
  match c.state with
  | ControllerState.Cooldown _ => true
  | _ => false

/-- Embedding of `TempController::get_state` (src/temp_controller.rs:91-93). -/
def get_state (c : TempController) : ControllerState :=
  c.state

end TempController

/-- C1: the transition table of `update`, stated on each of the three source
states.  The tick is `(now, temp)`; `update` returns the pair
(controller after the call, transition flag). -/
theorem update_follows_transition_table (c : TempController) (now : Nat)
    (temp : Int) :
    (c.state = ControllerState.Idle →
      c.update now temp =
        if temp > c.threshold_temperature then
          ({ c with state := ControllerState.Running now }, true)
        else (c, false))
    ∧ (∀ t0, c.state = ControllerState.Running t0 →
      c.update now temp =
        if now > t0 + c.minimum_runtime then
          ({ c with state := ControllerState.Cooldown now }, true)
        else (c, false))
    ∧ (∀ t0, c.state = ControllerState.Cooldown t0 →
      c.update now temp =
        if now > t0 + c.cooldown_time then
          ({ c with state := ControllerState.Idle }, true)
        else (c, false)) := by
  refine ⟨?_, ?_, ?_⟩
  · intro h
    simp [TempController.update, h]
  · intro t0 h
    simp [TempController.update, h]
  · intro t0 h
    simp [TempController.update, h]

/-- Witness for C1: the table evaluated at a concrete controller in each of
the three states. -/
theorem update_follows_transition_table_witness :
    (TempController.update ⟨ControllerState.Idle, 20, 10, 10⟩ 5 25 =
      (⟨ControllerState.Running 5, 20, 10, 10⟩, true))
    ∧ (TempController.update ⟨ControllerState.Running 3, 20, 10, 10⟩ 20 25 =
      (⟨ControllerState.Cooldown 20, 20, 10, 10⟩, true))
    ∧ (TempController.update ⟨ControllerState.Cooldown 3, 20, 10, 10⟩ 7 25 =
      (⟨ControllerState.Cooldown 3, 20, 10, 10⟩, false)) := by
  refine ⟨?_, ?_, ?_⟩
  · have h := (update_follows_transition_table
      ⟨ControllerState.Idle, 20, 10, 10⟩ 5 25).1 rfl
    simpa using h
  · have h := ((update_follows_transition_table
      ⟨ControllerState.Running 3, 20, 10, 10⟩ 20 25).2.1) 3 rfl
    simpa using h
  · have h := ((update_follows_transition_table
      ⟨ControllerState.Cooldown 3, 20, 10, 10⟩ 7 25).2.2) 3 rfl
    simpa using h

/-- The relay write performed by one iteration of `temp_controller_task`
(src/temp_controller.rs:112-118), given the controller after `update` and the
returned flag: `some true` = `set_high`, `some false` = `set_low`, `none` = the
relay pin is not written. -/
def relayWrite (c : TempController) (changed : Bool) : Option Bool :=
  if changed && c.is_running then some true
  else if changed && c.is_cooldown then some false
  else none

/-- State of `temp_controller_task` (src/temp_controller.rs:96-122): the
controller behind the mutex plus the current level of the relay output pin
(`true` = high). -/
structure TaskState where
  ctrl : TempController
  relay : Bool
deriving DecidableEq, Repr

/-- One loop iteration of `temp_controller_task` at tick `(now, temp)`:
`update`, then the conditional relay writes. -/
def taskStep (s : TaskState) (now : Nat) (temp : Int) : TaskState :=
  let r := s.ctrl.update now temp
  { ctrl := r.1
    relay :=
      match relayWrite r.1 r.2 with
      | some b => b
      | none => s.relay }

/-- The task `temp_controller_task` run over a list of ticks. -/
def runTask (s : TaskState) : List (Nat × Int) → TaskState
  | [] => s
  | (now, temp) :: rest => runTask (taskStep s now temp) rest

/-- Times of the ticks at which the task's `update` transitions into `Running`
(i.e. the relay is set high), along a list of ticks. -/
def runningEntries (c : TempController) : List (Nat × Int) → List Nat
  | [] => []
  | (now, temp) :: rest =>
    let r := c.update now temp
    if r.2 && r.1.is_running then now :: runningEntries r.1 rest
    else runningEntries r.1 rest

/-- Chronology predicate `chrono m ticks`: the tick times are nondecreasing and all at least `m`
(time is monotone: `Instant::now()` never goes backwards). -/
def chrono (m : Nat) : List (Nat × Int) → Bool
  | [] => true
  | (now, _) :: rest => decide (m ≤ now) && chrono now rest

theorem update_preserves_config (c : TempController) (now : Nat) (temp : Int) :
    (c.update now temp).1.threshold_temperature = c.threshold_temperature
    ∧ (c.update now temp).1.minimum_runtime = c.minimum_runtime
    ∧ (c.update now temp).1.cooldown_time = c.cooldown_time := by
  unfold TempController.update
  cases h : c.state <;> simp <;> split <;> simp

theorem update_running_iff (c : TempController) (now : Nat) (temp : Int) :
    ((c.update now temp).2 && (c.update now temp).1.is_running) = true ↔
      c.state = ControllerState.Idle ∧ temp > c.threshold_temperature
        ∧ (c.update now temp).1.state = ControllerState.Running now := by
  unfold TempController.update
  cases h : c.state <;> simp [TempController.is_running, h] <;>
    split <;> simp_all [TempController.is_running]

/-- Main trace invariant: if every tick time is at least `m`, and the
controller is either in `Cooldown t0` with `t0 + cooldown_time ≥ B`, or in any
state with `m > B`, then every transition into `Running` along the trace
happens at a time `> B`.  (The relay can only be re-energized strictly after
instant `B`.) -/
theorem runningEntries_bound :
    ∀ (ticks : List (Nat × Int)) (c : TempController) (m B : Nat),
      chrono m ticks = true →
      ((∃ t0, c.state = ControllerState.Cooldown t0 ∧ B ≤ t0 + c.cooldown_time)
        ∨ B < m) →
      ∀ t ∈ runningEntries c ticks, B < t := by
  intro ticks
  induction ticks with
  | nil => intro c m B _ _ t ht; simp [runningEntries] at ht
  | cons p rest ih =>
    obtain ⟨now, temp⟩ := p
    intro c m B hchrono hinv t ht
    rw [chrono] at hchrono
    have hmnow : m ≤ now := by
      have := (Bool.and_eq_true _ _).mp hchrono
      exact of_decide_eq_true this.1
    have hrest : chrono now rest = true :=
      ((Bool.and_eq_true _ _).mp hchrono).2
    rw [runningEntries] at ht
    by_cases hentry :
        ((c.update now temp).2 && (c.update now temp).1.is_running) = true
    · rw [if_pos hentry] at ht
      obtain ⟨hidle, _, hrun⟩ := (update_running_iff c now temp).mp hentry
      -- entering Running is only possible from Idle, so the invariant's
      -- Cooldown branch cannot hold: B < m ≤ now
      have hBm : B < m := by
        rcases hinv with ⟨t0, hc, _⟩ | h
        · rw [hidle] at hc; exact absurd hc (by simp)
        · exact h
      rcases List.mem_cons.mp ht with rfl | ht'
      · exact lt_of_lt_of_le hBm hmnow
      · refine ih (c.update now temp).1 now B hrest (Or.inr ?_) t ht'
        exact lt_of_lt_of_le hBm hmnow
    · rw [if_neg hentry] at ht
      refine ih (c.update now temp).1 now B hrest ?_ t ht
      -- re-establish the invariant for the post-state
      rcases hinv with ⟨t0, hc, hB⟩ | hBm
      · -- from Cooldown{t0}: either stays Cooldown{t0}, or leaves at a time
        -- now > t0 + cooldown_time ≥ B
        unfold TempController.update
        rw [hc]
        by_cases hlate : now > t0 + c.cooldown_time
        · right
          exact lt_of_le_of_lt hB hlate
        · left
          refine ⟨t0, ?_, ?_⟩
          · simp [hlate]
            exact hc
          · simp [hlate]
            exact hB
      · exact Or.inr (lt_of_lt_of_le hBm hmnow)

theorem update_stay_running (c : TempController) (now : Nat) (temp : Int)
    (t0 : Nat) (h : c.state = ControllerState.Running t0)
    (hle : now ≤ t0 + c.minimum_runtime) :
    c.update now temp = (c, false) := by
  unfold TempController.update
  rw [h]
  simp [Nat.not_lt.mpr hle]

theorem taskStep_stay_running (s : TaskState) (now : Nat) (temp : Int)
    (t0 : Nat) (h : s.ctrl.state = ControllerState.Running t0)
    (hle : now ≤ t0 + s.ctrl.minimum_runtime) :
    taskStep s now temp = s := by
  unfold taskStep relayWrite
  rw [update_stay_running s.ctrl now temp t0 h hle]
  simp

theorem runTask_stay_running :
    ∀ (ticks : List (Nat × Int)) (s : TaskState) (t0 : Nat),
      s.ctrl.state = ControllerState.Running t0 →
      (∀ p ∈ ticks, p.1 ≤ t0 + s.ctrl.minimum_runtime) →
      runTask s ticks = s := by
  intro ticks
  induction ticks with
  | nil => intro s t0 _ _; rfl
  | cons p rest ih =>
    obtain ⟨now, temp⟩ := p
    intro s t0 h hticks
    have hle : now ≤ t0 + s.ctrl.minimum_runtime :=
      hticks (now, temp) (List.mem_cons_self _ _)
    rw [runTask, taskStep_stay_running s now temp t0 h hle]
    exact ih s t0 h fun p hp => hticks p (List.mem_cons_of_mem _ hp)

/-- C2: (a) a single `update` call never moves the controller from a
`Cooldown` state to a `Running` state; (b) once the relay has been set low —
i.e. the controller has just entered `Cooldown { starttime := t_low }`, the
de-energization time being the recorded `starttime` — every later tick that
sets the relay high again (`runningEntries` collects exactly the ticks where
`temp_controller_task` calls `set_high`) happens strictly later than
`t_low + cooldown_time`, for any chronological temperature/time sequence. -/
theorem cooldown_never_reenters_running_early :
    (∀ (c : TempController) (now : Nat) (temp : Int) (t0 : Nat),
      c.state = ControllerState.Cooldown t0 →
      (c.update now temp).1.is_running = false)
    ∧ (∀ (c : TempController) (t_low : Nat) (ticks : List (Nat × Int)),
      c.state = ControllerState.Cooldown t_low →
      chrono t_low ticks = true →
      ∀ t ∈ runningEntries c ticks, t_low + c.cooldown_time < t)
    ∧ (∀ (c : TempController) (now : Nat) (temp : Int),
      relayWrite (c.update now temp).1 (c.update now temp).2 = some true ↔
        ((c.update now temp).2 && (c.update now temp).1.is_running) = true) := by
  refine ⟨?_, ?_, ?_⟩
  · intro c now temp t0 h
    simp only [TempController.update, h]
    split <;> simp [TempController.is_running, h]
  · intro c t_low ticks h hch t ht
    exact runningEntries_bound ticks c t_low (t_low + c.cooldown_time) hch
      (Or.inl ⟨t_low, h, le_refl _⟩) t ht
  · intro c now temp
    unfold relayWrite
    split
    · simp_all
    · split <;> simp_all

/-- Witness for C2 at a concrete controller (threshold 20, runtime 10,
cooldown 10, in `Cooldown {starttime := 0}`) and a concrete tick sequence. -/
theorem cooldown_never_reenters_running_early_witness :
    (TempController.update ⟨ControllerState.Cooldown 0, 20, 10, 10⟩ 5
      25).1.is_running = false
    ∧ ∀ t ∈ runningEntries ⟨ControllerState.Cooldown 0, 20, 10, 10⟩
        [(1, 25), (11, 25), (12, 25)], 0 + 10 < t := by
  constructor
  · exact cooldown_never_reenters_running_early.1
      ⟨ControllerState.Cooldown 0, 20, 10, 10⟩ 5 25 0 rfl
  · intro t ht
    exact cooldown_never_reenters_running_early.2.1
      ⟨ControllerState.Cooldown 0, 20, 10, 10⟩ 0 [(1, 25), (11, 25), (12, 25)]
      rfl (by decide) t ht

/-- C3: (a) in `Running {t0}` with `now ≤ t0 + minimum_runtime`, `update`
leaves the controller unchanged and returns `false`; (b) the `Running` branch
ignores the temperature argument entirely; (c) over any whole tick sequence
whose times stay `≤ t0 + minimum_runtime`, `temp_controller_task` leaves the
task state — controller still `Running {t0}` and relay level — untouched, so a
relay that is on stays on for the whole minimum runtime. -/
theorem running_minimum_runtime_hard_floor :
    (∀ (c : TempController) (now : Nat) (temp : Int) (t0 : Nat),
      c.state = ControllerState.Running t0 → now ≤ t0 + c.minimum_runtime →
      c.update now temp = (c, false))
    ∧ (∀ (c : TempController) (now : Nat) (temp1 temp2 : Int) (t0 : Nat),
      c.state = ControllerState.Running t0 →
      c.update now temp1 = c.update now temp2)
    ∧ (∀ (s : TaskState) (t0 : Nat) (ticks : List (Nat × Int)),
      s.ctrl.state = ControllerState.Running t0 →
      (∀ p ∈ ticks, p.1 ≤ t0 + s.ctrl.minimum_runtime) →
      runTask s ticks = s) := by
  refine ⟨update_stay_running, ?_, fun s t0 ticks h hticks =>
    runTask_stay_running ticks s t0 h hticks⟩
  intro c now temp1 temp2 t0 h
  unfold TempController.update
  rw [h]

/-- Witness for C3: a controller in `Running {starttime := 4}` with
minimum runtime 10 stays put (relay on) over ticks at times 5..14 even though
the temperature drops far below the threshold. -/
theorem running_minimum_runtime_hard_floor_witness :
    (TempController.update ⟨ControllerState.Running 4, 20, 10, 10⟩ 9 (-30) =
      (⟨ControllerState.Running 4, 20, 10, 10⟩, false))
    ∧ (TempController.update ⟨ControllerState.Running 4, 20, 10, 10⟩ 9 35 =
      TempController.update ⟨ControllerState.Running 4, 20, 10, 10⟩ 9 (-30))
    ∧ runTask ⟨⟨ControllerState.Running 4, 20, 10, 10⟩, true⟩
        [(5, 19), (9, -30), (14, 2)] =
      ⟨⟨ControllerState.Running 4, 20, 10, 10⟩, true⟩ := by
  refine ⟨?_, ?_, ?_⟩
  · exact running_minimum_runtime_hard_floor.1
      ⟨ControllerState.Running 4, 20, 10, 10⟩ 9 (-30) 4 rfl (by decide)
  · exact running_minimum_runtime_hard_floor.2.1
      ⟨ControllerState.Running 4, 20, 10, 10⟩ 9 35 (-30) 4 rfl
  · exact running_minimum_runtime_hard_floor.2.2
      ⟨⟨ControllerState.Running 4, 20, 10, 10⟩, true⟩ 4
      [(5, 19), (9, -30), (14, 2)] rfl (by decide)

/-- C4: `TempController::new` always starts in
`Cooldown { starttime := now }` (`now` = construction time), whatever the
constructor arguments, and on any chronological tick sequence after
construction the relay cannot be energized (no transition into `Running`)
until strictly more than one full `cooldown_time` has elapsed since
construction. -/
theorem new_starts_in_cooldown :
    (∀ (th : Int) (mr cd now : Nat),
      (TempController.new th mr cd now).state = ControllerState.Cooldown now)
    ∧ (∀ (th : Int) (mr cd now : Nat) (ticks : List (Nat × Int)),
      chrono now ticks = true →
      ∀ t ∈ runningEntries (TempController.new th mr cd now) ticks,
        now + cd < t) := by
  constructor
  · intro th mr cd now
    rfl
  · intro th mr cd now ticks hch t ht
    exact runningEntries_bound ticks (TempController.new th mr cd now) now
      (now + cd) hch (Or.inl ⟨now, rfl, le_refl _⟩) t ht

/-- Witness for C4: constructed at time 2 with cooldown 10, the only relay
energization along the given ticks is at time 14 > 12. -/
theorem new_starts_in_cooldown_witness :
    (TempController.new 20 10 10 2).state = ControllerState.Cooldown 2
    ∧ ∀ t ∈ runningEntries (TempController.new 20 10 10 2)
        [(3, 25), (13, 30), (14, 21)], 2 + 10 < t := by
  constructor
  · exact new_starts_in_cooldown.1 20 10 10 2
  · intro t ht
    exact new_starts_in_cooldown.2 20 10 10 2 [(3, 25), (13, 30), (14, 21)]
      (by decide) t ht

/-- C6: `update` returns `true` iff the state after the call differs from the
state before it, and the task writes the relay exactly as the claim says: high
exactly on a transition into `Running`, low exactly on a transition into
`Cooldown`, and not at all otherwise (no transition, or a transition into
`Idle`). -/
theorem update_flag_and_relay_writes (c : TempController) (now : Nat)
    (temp : Int) :
    ((c.update now temp).2 = true ↔ (c.update now temp).1.state ≠ c.state)
    ∧ (relayWrite (c.update now temp).1 (c.update now temp).2 = some true ↔
        (c.update now temp).1.state ≠ c.state
          ∧ ∃ t, (c.update now temp).1.state = ControllerState.Running t)
    ∧ (relayWrite (c.update now temp).1 (c.update now temp).2 = some false ↔
        (c.update now temp).1.state ≠ c.state
          ∧ ∃ t, (c.update now temp).1.state = ControllerState.Cooldown t)
    ∧ (relayWrite (c.update now temp).1 (c.update now temp).2 = none ↔
        (c.update now temp).1.state = c.state
          ∨ (c.update now temp).1.state = ControllerState.Idle) := by
  unfold TempController.update relayWrite
  cases h : c.state <;>
    simp [TempController.is_running, TempController.is_cooldown, h] <;>
    split <;>
    simp_all [TempController.is_running, TempController.is_cooldown]

/-- A raw DHT11 sample: the five `u32` words pulled from the PIO RX FIFO into
`dht11_data_buf` (src/dht11.rs:48-51); with an 8-bit autopush threshold each
word carries one byte-lane of the sensor frame. -/
structure RawSample where
  lane0 : Nat
  lane1 : Nat
  lane2 : Nat
  lane3 : Nat
  lane4 : Nat
deriving DecidableEq, Repr

/-- The Rust cast `u32 as i8`: keep the low byte and reinterpret it as a
two's-complement signed 8-bit integer. -/
def u32_as_i8 (v : Nat) : Int :=
  if v % 256 < 128 then (v % 256 : Int) else (v % 256 : Int) - 256

/-- Embedding of `DHT11::get_temperature` (src/dht11.rs:43-58): pulls the five words and
returns `dht11_data_buf[2] as i8`, unconditionally — no checksum check. -/
def get_temperature (s : RawSample) : Int :=
  u32_as_i8 s.lane2

/-- Modelled from the spec: `DHT11::get_temperature_humidity`, the decode
entry point called from src/main.rs and src/temp_controller.rs but not present
in src/dht11.rs (which holds the temperature-only variant).  Spec §4.2:
Decode returns `{temperature: lane2 as signed 8-bit, humidity: lane0 as
signed 8-bit}` unconditionally in the minimal design. -/
def get_temperature_humidity (s : RawSample) : Int × Int :=
  (u32_as_i8 s.lane2, u32_as_i8 s.lane0)

theorem u32_as_i8_spec (v : Nat) :
    -128 ≤ u32_as_i8 v ∧ u32_as_i8 v < 128
      ∧ u32_as_i8 v % 256 = (v : Int) % 256 := by
  unfold u32_as_i8
  split <;> omega

/-- C5: the decode step takes every `RawSample` — whatever its checksum lane —
to the pair (lane 2 as signed 8-bit, lane 0 as signed 8-bit): each component
lies in `[-128, 128)` and is congruent to its lane mod 256, `get_temperature`
agrees on the temperature component, and on the concrete lanes
`[60, 0, 25, 0, 85]` the result is temperature 25, humidity 60. -/
theorem decode_unconditional_signed_lanes (s : RawSample) :
    (-128 ≤ (get_temperature_humidity s).1
      ∧ (get_temperature_humidity s).1 < 128
      ∧ (get_temperature_humidity s).1 % 256 = (s.lane2 : Int) % 256)
    ∧ (-128 ≤ (get_temperature_humidity s).2
      ∧ (get_temperature_humidity s).2 < 128
      ∧ (get_temperature_humidity s).2 % 256 = (s.lane0 : Int) % 256)
    ∧ get_temperature s = (get_temperature_humidity s).1
    ∧ get_temperature_humidity ⟨60, 0, 25, 0, 85⟩ = (25, 60) :=
  ⟨u32_as_i8_spec s.lane2, u32_as_i8_spec s.lane0, rfl, by decide⟩

/-- C10: for a 32-bit word `v` in lane 2, `get_temperature` returns
`v % 2^8` reinterpreted in two's complement (subtracting `2^8` when the low
byte is at least 128), and any lane whose low byte is 128 or more is reported
as a strictly negative temperature. -/
theorem get_temperature_low_byte (s : RawSample) (hv : s.lane2 < 2 ^ 32) :
    (get_temperature s =
      if s.lane2 % 2 ^ 8 < 128 then (s.lane2 % 2 ^ 8 : Int)
      else (s.lane2 % 2 ^ 8 : Int) - 2 ^ 8)
    ∧ (128 ≤ s.lane2 % 2 ^ 8 → get_temperature s < 0) := by
  have key : get_temperature s =
      if s.lane2 % 2 ^ 8 < 128 then (s.lane2 % 2 ^ 8 : Int)
      else (s.lane2 % 2 ^ 8 : Int) - 2 ^ 8 := by
    unfold get_temperature u32_as_i8
    norm_num
  refine ⟨key, fun h => ?_⟩
  rw [key, if_neg (Nat.not_lt.mpr h)]
  have h2 : (s.lane2 : Int) % 2 ^ 8 < 2 ^ 8 :=
    Int.emod_lt_of_pos _ (by norm_num)
  omega

/-- Witness for C10: lane 2 holding 712 (low byte 200) decodes to -56 < 0. -/
theorem get_temperature_low_byte_witness :
    get_temperature ⟨0, 0, 712, 0, 0⟩ = (712 % 2 ^ 8 : Int) - 2 ^ 8
    ∧ get_temperature ⟨0, 0, 712, 0, 0⟩ < 0 := by
  have h := get_temperature_low_byte ⟨0, 0, 712, 0, 0⟩ (by norm_num)
  constructor
  · rw [h.1]
    norm_num
  · exact h.2 (by norm_num)

/-- Modelled from the spec: `TempControllerConfig`, imported by src/main.rs
from the controller module but missing from the variant of
src/temp_controller.rs in the tree.  Spec §3: `{threshold_temperature: i8,
minimum_runtime: duration, cooldown_time: duration}`. -/
structure TempControllerConfig where
  threshold_temperature : Int
  minimum_runtime : Nat
  cooldown_time : Nat
deriving DecidableEq, Repr

/-- Modelled from the spec: the config-carrying `TempController` variant used
by src/main.rs (constructed from a `TempControllerConfig`, with `get_config`
and `update_config`), missing from src/temp_controller.rs.  Spec §3/§4.3:
current state plus the active config. -/
structure TempControllerC where
  state : ControllerState
  config : TempControllerConfig
deriving DecidableEq, Repr

/-- Modelled from the spec: `update` of the config-carrying variant — the
spec §4.3 transition table (identical to `TempController::update` in
src/temp_controller.rs, reading threshold and durations from the config). -/
def updateC (c : TempControllerC) (now : Nat) (temp : Int) :
    TempControllerC × Bool :=
  match c.state with
  | ControllerState.Idle =>
    if temp > c.config.threshold_temperature then
      ({ c with state := ControllerState.Running now }, true)
    else (c, false)
  | ControllerState.Running starttime =>
    if now > starttime + c.config.minimum_runtime then
      ({ c with state := ControllerState.Cooldown now }, true)
    else (c, false)
  | ControllerState.Cooldown starttime =>
    if now > starttime + c.config.cooldown_time then
      ({ c with state := ControllerState.Idle }, true)
    else (c, false)

/-- Modelled from the spec: `update_config(new)` of the config-carrying
variant, called at src/main.rs:108 but missing from src/temp_controller.rs.
Spec §4.3: replaces the active config; it never retroactively affects an
in-progress interval. -/
def update_config (c : TempControllerC) (cfg : TempControllerConfig) :
    TempControllerC :=
  { c with config := cfg }

/-- One iteration of the `temp_controller` task loop of src/main.rs:101-111:
receive `(temperature, _)`, call `update` (its returned flag is discarded),
signal `(get_state(), get_config())` — unconditionally — on
`CONTROLLER_CURRENT_STATUS`, then drain a pending config update if one is
queued.  Returns the controller for the next tick and the status written to
the signal this iteration (`some` on every iteration, since the `signal` call
is unconditional). -/
def tempControllerIter (c : TempControllerC) (now : Nat) (temp : Int)
    (pending : Option TempControllerConfig) :
    TempControllerC × Option (ControllerState × TempControllerConfig) :=
  let c1 := (updateC c now temp).1
  let published := some (c1.state, c1.config)
  let c2 :=
    match pending with
    | some cfg => update_config c1 cfg
    | none => c1
  (c2, published)

/-- The `temp_controller` loop of src/main.rs run over a list of
`(now, temperature)` ticks with no queued config updates; the second component
is the content of the publish-latest status slot (most recent signalled
value). -/
def runTempControllerLoop :
    TempControllerC → Option (ControllerState × TempControllerConfig) →
    List (Nat × Int) →
    TempControllerC × Option (ControllerState × TempControllerConfig)
  | c, last, [] => (c, last)
  | c, _, (now, temp) :: rest =>
    let r := tempControllerIter c now temp none
    runTempControllerLoop r.1 r.2 rest

/-- C7 counterexample: with the default config of src/main.rs (threshold 20)
in `Idle` and temperature 15 ≤ 20, `update` performs no transition (flag
`false`, state unchanged), yet the loop iteration still publishes a status
snapshot — the `signal` call at src/main.rs:105 is unconditional, not guarded
by a transition. -/
theorem status_published_without_transition :
    (updateC ⟨ControllerState.Idle, ⟨20, 10, 10⟩⟩ 5 15).1.state
      = ControllerState.Idle
    ∧ (updateC ⟨ControllerState.Idle, ⟨20, 10, 10⟩⟩ 5 15).2 = false
    ∧ (tempControllerIter ⟨ControllerState.Idle, ⟨20, 10, 10⟩⟩ 5 15 none).2
      = some (ControllerState.Idle, ⟨20, 10, 10⟩) := by
  exact ⟨rfl, rfl, rfl⟩

/-- C7 as amended: a status snapshot is published on every loop iteration —
whether or not `update` transitioned — and the published pair is read
atomically from the controller right after `update`: it is always the
post-update state together with the config active during that same `update`
call (a pending config update is only applied after the snapshot), never a
torn combination. -/
theorem status_published_every_iteration_atomic (c : TempControllerC)
    (now : Nat) (temp : Int) (pending : Option TempControllerConfig) :
    (tempControllerIter c now temp pending).2 =
      some ((updateC c now temp).1.state, (updateC c now temp).1.config) :=
  rfl

/-- C8: `update_config` replaces only the configuration: the state variant and
any recorded `starttime` of an in-progress `Running`/`Cooldown` interval are
untouched, the active config becomes the new one, and the next `update` tick
behaves exactly as an `update` under the new config. -/
theorem update_config_preserves_state (c : TempControllerC)
    (cfg : TempControllerConfig) :
    (update_config c cfg).state = c.state
    ∧ (update_config c cfg).config = cfg
    ∧ (∀ t0, c.state = ControllerState.Running t0 →
        (update_config c cfg).state = ControllerState.Running t0)
    ∧ (∀ t0, c.state = ControllerState.Cooldown t0 →
        (update_config c cfg).state = ControllerState.Cooldown t0)
    ∧ (∀ (now : Nat) (temp : Int),
        updateC (update_config c cfg) now temp =
          updateC ⟨c.state, cfg⟩ now temp) := by
  refine ⟨rfl, rfl, ?_, ?_, ?_⟩
  · intro t0 h
    simp [update_config, h]
  · intro t0 h
    simp [update_config, h]
  · intro now temp
    rfl

/-- Witness for C8 at a concrete mid-`Running` controller and a concrete new
config: the recorded `starttime` 7 survives the config change. -/
theorem update_config_preserves_state_witness :
    (update_config ⟨ControllerState.Running 7, ⟨20, 10, 10⟩⟩
      ⟨25, 30, 40⟩).state = ControllerState.Running 7
    ∧ (update_config ⟨ControllerState.Running 7, ⟨20, 10, 10⟩⟩
      ⟨25, 30, 40⟩).config = ⟨25, 30, 40⟩ := by
  constructor
  · exact (update_config_preserves_state
      ⟨ControllerState.Running 7, ⟨20, 10, 10⟩⟩ ⟨25, 30, 40⟩).2.2.1 7 rfl
  · exact (update_config_preserves_state
      ⟨ControllerState.Running 7, ⟨20, 10, 10⟩⟩ ⟨25, 30, 40⟩).2.1

/-- Subtraction `Duration - Duration` as used by src/uart_cli.rs:121-139: embassy-time's
subtraction panics on underflow, modelled as `none`. -/
def duration_checked_sub (a b : Nat) : Option Nat :=
  if b ≤ a then some (a - b) else none

/-- The `Status` command's remaining-time computation (src/uart_cli.rs:110-143)
on the cached status `(state, config)` at CLI time `now`:
`minimum_runtime - (Instant::now() - starttime)` in the `Running` arm,
`cooldown_time - (Instant::now() - starttime)` in the `Cooldown` arm; the
`Idle` arm performs no subtraction (`none`).  `some none` marks the
underflowing — panicking — subtraction. -/
def status_time_remaining (status : ControllerState × TempControllerConfig)
    (now : Nat) : Option (Option Nat) :=
  match status.1 with
  | ControllerState.Idle => none
  | ControllerState.Running starttime =>
    some (duration_checked_sub status.2.minimum_runtime (now - starttime))
  | ControllerState.Cooldown starttime =>
    some (duration_checked_sub status.2.cooldown_time (now - starttime))

/-- C9 fails on the code: with src/main.rs's default config (threshold 20 °C,
minimum runtime 10 s, cooldown 10 s; times in milliseconds) and a constant
temperature of 25 °C sampled at 1 Hz (ticks at 1000·k ms, k = 1..22, all
chronological), the status slot holds `(Running {starttime := 12000}, config)`
after the tick at 22000 ms — the controller leaves `Running` only at its next
tick, 23000 ms, since `22000 > 12000 + 10000` is false.  A `Status` command
at 22500 ms therefore sees elapsed time 10500 ms > `minimum_runtime` and the
remaining-time subtraction `10000 - 10500` underflows: the `Duration`
subtraction panics. -/
theorem status_remaining_time_underflows :
    (runTempControllerLoop
        ⟨ControllerState.Cooldown 0, ⟨20, 10000, 10000⟩⟩ none
        ((List.range 22).map fun k => ((k + 1) * 1000, (25 : Int)))).2
      = some (ControllerState.Running 12000, ⟨20, 10000, 10000⟩)
    ∧ status_time_remaining
        (ControllerState.Running 12000, ⟨20, 10000, 10000⟩) 22500
      = some none := by
  constructor
  · rfl
  · rfl

end PicoW
